import Mathlib

/-!
Verification of the pywps output-storage module (`pywps/inout/storage.py`).

The Python module is shallowly embedded. Paths and URLs are lists of
characters. The OS-level facts a single `store` call observes (stat
results, free-space query, target-directory contents, the candidate names
`tempfile.mkstemp` tries, whether the copy completes) are packaged into
explicit environment records, and every `store` method becomes a pure
function from configuration, environment and output handler to an
`Except` result paired with the resulting target-directory state.
-/

namespace PyWPS

/-- Python strings (paths, URLs) are modelled as lists of characters. -/
abbrev Str := List Char

/- ---------------------------------------------------------------------
Python `str.rfind` and the `os.path` helpers used by the module
(posixpath variants, the target platform of the repository).
--------------------------------------------------------------------- -/

/-- Scan for `str.rfind`: walks the string keeping the index of the last
occurrence seen so far. -/
def rfindAux (c : Char) : Str → Nat → Option Nat → Option Nat
  | [], _, acc => acc
  | x :: xs, i, acc => rfindAux c xs (i + 1) (if x = c then some i else acc)

/-- Python `s.rfind(c)`: the index of the last occurrence of `c` in `s`,
or `none` when `c` does not occur (Python returns -1). -/
def rfindN (s : Str) (c : Char) : Option Nat := rfindAux c s 0 none

/-- `os.path.join(a, b)` for one join step (posixpath): if `b` is absolute
the result is `b`; otherwise `b` is appended to `a`, inserting a slash
unless `a` is empty or already ends with one. -/
def os_join (a b : Str) : Str :=
  if b.head? = some '/' then b
  else if a = [] then b
  else if a.getLast? = some '/' then a ++ b
  else a ++ '/' :: b

/-- `os.path.split(p)` (posixpath): split after the final slash; the head
keeps its trailing slashes stripped unless it consists only of slashes. -/
def os_split (p : Str) : Str × Str :=
  let i := match rfindN p '/' with
    | none => 0
    | some k => k + 1
  let head := p.take i
  let tail := p.drop i
  if head ≠ [] ∧ head.any (fun c => c ≠ '/') then
    ((head.reverse.dropWhile (fun c => c = '/')).reverse, tail)
  else (head, tail)

/-- `os.path.basename(p)` (posixpath): everything after the final slash. -/
def basename (p : Str) : Str := (os_split p).2

/-- `os.path.splitext(p)` (posixpath `_splitext`): split at the last dot,
provided it lies after the last slash and the final component does not
consist solely of leading dots up to that position. -/
def splitext (p : Str) : Str × Str :=
  match rfindN p '.' with
  | none => (p, [])
  | some dotIndex =>
    let sepIndex : Int := match rfindN p '/' with
      | none => -1
      | some k => (k : Int)
    if sepIndex < (dotIndex : Int) then
      let first := (sepIndex + 1).toNat
      if ((p.drop first).take (dotIndex - first)).any (fun c => c ≠ '.') then
        (p.take dotIndex, p.drop dotIndex)
      else (p, [])
    else (p, [])

/-- `urljoin(base, url)` from `pywps._compat` (urllib's RFC 3986
resolution), modelled for the inputs this module builds: an absolute base
URL whose path part contains at least one slash, and a relative reference
that is a plain file name (no slash, scheme, query or fragment). For such
inputs RFC 3986 resolution replaces everything after the base's last
slash with the reference; an empty reference leaves the base unchanged. -/
def urljoin (base ref : Str) : Str :=
  if ref = [] then base
  else match rfindN base '/' with
    | none => ref
    | some i => base.take (i + 1) ++ ref

/- ---------------------------------------------------------------------
The Space Accountant: `get_free_space` and the block-rounded size.
--------------------------------------------------------------------- -/

/-- The two branches of `platform.system()` that `get_free_space`
distinguishes: `'Windows'` and everything else. -/
inductive Platform
  | windows
  | posix
deriving DecidableEq

/-- The fields of `os.statvfs(folder)` that matter here: `f_bfree` is the
number of free blocks, `f_frsize` the size of one block in bytes. -/
structure StatVFS where
  f_bfree : Nat
  f_frsize : Nat
deriving DecidableEq

/-- What the OS reports about the filesystem hosting the target folder:
the byte count `GetDiskFreeSpaceExW` writes on Windows, and the
`statvfs` record on other systems. -/
structure DiskInfo where
  winFreeBytes : Nat
  statvfs : StatVFS
deriving DecidableEq

/-- `get_free_space(folder)`: on Windows, the byte count reported by
`GetDiskFreeSpaceExW`; otherwise the value `os.statvfs(folder).f_bfree`
— exactly as the source reads it, with no block-size factor. -/
def get_free_space (platform : Platform) (disk : DiskInfo) : Nat :=
  match platform with
  | .windows => disk.winFreeBytes
  | .posix => disk.statvfs.f_bfree

/-- Modelled from the POSIX `statvfs` interface (not from the repository):
the free capacity in bytes of a filesystem is its free block count times
its block size. Used only to state what "free space in bytes" means. -/
def statvfs_free_bytes (s : StatVFS) : Nat := s.f_bfree * s.f_frsize

/-- `actual_file_size = math.ceil(file_size / float(file_block_size)) *
file_block_size` — the exact-arithmetic reading of the source line: the
quotient is taken in ℚ and rounded up. (Python evaluates the quotient in
double precision, which agrees with the exact value for the file sizes a
filesystem can report against any positive block size below 2^52.) -/
def actual_file_size (file_size file_block_size : Nat) : Int :=
  ⌈(file_size : ℚ) / (file_block_size : ℚ)⌉ * file_block_size

/- ---------------------------------------------------------------------
Exceptions. `pywps/exceptions` supplies the classes named on the import
line of the module; a `raise` site names a class, and Python resolves
that name in the module's namespace — an unbound name raises `NameError`.
--------------------------------------------------------------------- -/

/-- The failure outcomes a `store` call can surface: the exception
classes the module imports, the builtin exceptions its library calls can
raise, and `NameError` for a `raise` site that names an unbound class.
`OtherError` stands for unmodelled failures of external calls (network
connect, credential files). -/
inductive PyError
  | NotEnoughStorage
  | StorageAuthenticationError
  | StorageDependencyError
  | NameError (unbound : String)
  | OSError
  | FileExistsError
  | ImportError
  | AttributeError
  | OtherError
deriving DecidableEq

/-- Name resolution at a `raise` site. The module-level import is
`from pywps.exceptions import NotEnoughStorage, NoApplicableCode,
StorageAuthenticationError, StorageDependencyError`; raising any other
name fails with `NameError` (`NoApplicableCode` is never raised). -/
def raiseExc (n : String) : PyError :=
  if n = "NotEnoughStorage" then .NotEnoughStorage
  else if n = "StorageAuthenticationError" then .StorageAuthenticationError
  else if n = "StorageDependencyError" then .StorageDependencyError
  else .NameError n

/- ---------------------------------------------------------------------
The target directory and `tempfile.mkstemp`.
--------------------------------------------------------------------- -/

/-- The target directory's namespace: the paths that currently exist. -/
structure Dir where
  files : List Str
deriving DecidableEq

/-- The path `tempfile.mkstemp(suffix=sfx, prefix=pfx, dir=dirPath)`
builds for one candidate random string: `os.path.join(dirPath,
pfx + rnd + sfx)`. -/
def mkstemp_path (dirPath pfx rnd sfx : Str) : Str :=
  os_join dirPath (pfx ++ rnd ++ sfx)

/-- The retry loop of `tempfile.mkstemp`: try candidate names in order,
atomically creating the first one that does not already exist
(`O_CREAT | O_EXCL`); give up after `fuel` attempts (`TMP_MAX`, after
which Python raises `FileExistsError`). -/
def mkstempAux (files : List Str) (mk : Nat → Str) : Nat → Nat → Option Str
  | _, 0 => none
  | i, fuel + 1 => if mk i ∈ files then mkstempAux files mk (i + 1) fuel else some (mk i)

/-- `tempfile.mkstemp(suffix=sfx, prefix=pfx, dir=dirPath)[1]`: returns
the created path and the directory with that path now existing. `cands`
enumerates the random strings the generator produces. -/
def tempfile_mkstemp (d : Dir) (sfx pfx dirPath : Str) (cands : Nat → Str)
    (fuel : Nat) : Option (Str × Dir) :=
  match mkstempAux d.files (fun i => mkstemp_path dirPath pfx (cands i) sfx) 0 fuel with
  | none => none
  | some p => some (p, ⟨p :: d.files⟩)

/- ---------------------------------------------------------------------
The data model shared by the backends.
--------------------------------------------------------------------- -/

/- `class STORE_TYPE`: the integer tags of the result tuple. -/
namespace STORE_TYPE

def PATH : Nat := 0

def FTP : Nat := 1

def DROPBOX : Nat := 2

def GOOGLEDRIVE : Nat := 3

end STORE_TYPE

/-- The declared output format of an artifact; `store` only calls its
`get_extension()`. -/
structure OutputFormat where
  get_extension : Str

/-- The slice of the `IOHandler` argument that `store` reads: the local
file path and the declared output format. -/
structure IOHandler where
  file : Str
  output_format : OutputFormat

/-- A `store` result as the source builds it: `(type, store, url)`. -/
abbrev StoreTriple := Nat × Str × Str

/- ---------------------------------------------------------------------
DummyStorage.
--------------------------------------------------------------------- -/

/-- `class DummyStorage`: carries no state (its `__init__` is empty). -/
structure DummyStorage where

/-- `DummyStorage.store(self, ouput)`: the body is `pass`, so every call
performs no I/O and returns Python `None`, modelled as `none`. -/
def DummyStorage.store (_self : DummyStorage) (_ouput : IOHandler) :
    Option StoreTriple := none

/- ---------------------------------------------------------------------
FileStorage.
--------------------------------------------------------------------- -/

/-- `class FileStorage`: configuration closed over at construction —
`target` from `server/outputpath`, `output_url` the concatenation of
`server/url` and `server/outputurl`. -/
structure FileStorage where
  target : Str
  output_url : Str

/-- The OS-level facts one `FileStorage.store` call observes. -/
structure StoreEnv where
  platform : Platform
  disk : DiskInfo
  st_size : Nat
  st_blksize : Nat
  dir : Dir
  cands : Nat → Str
  fuel : Nat
  copy_ok : Bool

/-- The suffix selection of `store`:
`(prefix, suffix) = os.path.splitext(file_name)`;
`if not suffix: suffix = output.output_format.get_extension()`. -/
def store_sfx (file_name fmt_ext : Str) : Str :=
  let ps := splitext file_name
  if ps.2 = [] then fmt_ext else ps.2

/-- The stem passed to `mkstemp` as its name prefix:
`(file_dir, file_name) = os.path.split(prefix)`. -/
def store_fname (file_name : Str) : Str :=
  (os_split (splitext file_name).1).2

/-- `FileStorage.store(self, output)`, line for line: stat the source
file, query free space, round the size up to whole blocks, refuse with
`NotEnoughStorage` when space is short, pick the stored name through
`tempfile.mkstemp`, copy with `shutil.copy2` (a failure there propagates
as the copy's `OSError`), and return
`(STORE_TYPE.PATH, output_name, urljoin(output_url, basename))`.
The second component of the result is the target directory afterwards. -/
def FileStorage.store (self : FileStorage) (env : StoreEnv) (output : IOHandler) :
    Except PyError StoreTriple × Dir :=
  let file_name := output.file
  let file_block_size := env.st_blksize
  let avail_size := get_free_space env.platform env.disk
  let file_size := env.st_size
  let actual_size := actual_file_size file_size file_block_size
  if (avail_size : Int) < actual_size then
    (.error .NotEnoughStorage, env.dir)
  else
    match tempfile_mkstemp env.dir (store_sfx file_name output.output_format.get_extension)
        (store_fname file_name) self.target env.cands env.fuel with
    | none => (.error .FileExistsError, env.dir)
    | some (output_name, dir1) =>
      if env.copy_ok then
        let just_file_name := basename output_name
        let url := urljoin self.output_url just_file_name
        (.ok (STORE_TYPE.PATH, output_name, url), dir1)
      else
        (.error .OSError, dir1)

/- ---------------------------------------------------------------------
FTPStorage.
--------------------------------------------------------------------- -/

/-- `class FTPStorage`: configuration closed over at construction. -/
structure FTPStorage where
  ftp_host : Str
  ftp_user : Str
  ftp_password : Str
  target : Str
  output_url : Str

/-- The facts one `FTPStorage.store` call observes: whether `import
ftplib` succeeds, the staging directory, `mkstemp` candidates and fuel,
whether the local staging copy completes, whether `ftplib.FTP(host)`
connects, whether `login` is accepted, and whether `storlines`
completes. -/
structure FTPEnv where
  ftplib_available : Bool
  dir : Dir
  cands : Nat → Str
  fuel : Nat
  copy_ok : Bool
  connect_ok : Bool
  login_ok : Bool
  stor_ok : Bool

/-- `FTPStorage.store(self, output)`: the `try: import ftplib` guard —
whose `except` clause raises the unbound name `StorageDependecyError`
(note the spelling; the imported class is `StorageDependencyError`) —
then the same naming/staging steps as `FileStorage.store` (no capacity
check), then connect, `login` (a rejection raises
`StorageAuthenticationError`), `storlines`, and the result triple
`(STORE_TYPE.FTP, output_name, urljoin(ftp_host, basename))`. -/
def FTPStorage.store (self : FTPStorage) (env : FTPEnv) (output : IOHandler) :
    Except PyError StoreTriple × Dir :=
  let file_name := output.file
  if env.ftplib_available = false then
    (.error (raiseExc ("StorageDependecyError")), env.dir)
  else
    match tempfile_mkstemp env.dir (store_sfx file_name output.output_format.get_extension)
        (store_fname file_name) self.target env.cands env.fuel with
    | none => (.error .FileExistsError, env.dir)
    | some (output_name, dir1) =>
      if env.copy_ok = false then (.error .OSError, dir1)
      else if env.connect_ok = false then (.error .OtherError, dir1)
      else if env.login_ok = false then (.error .StorageAuthenticationError, dir1)
      else if env.stor_ok = false then (.error .OtherError, dir1)
      else
        let just_file_name := basename output_name
        let url := urljoin self.ftp_host just_file_name
        (.ok (STORE_TYPE.FTP, output_name, url), dir1)

/- ---------------------------------------------------------------------
DropBoxStorage.
--------------------------------------------------------------------- -/

/-- `class DropBoxStorage`: its `__init__` stores the configured access
token in the attribute `dropbox_app_key` (the only token attribute the
instance has). -/
structure DropBoxStorage where
  dropbox_app_key : Str
  target : Str
  output_url : Str

/-- The facts one `DropBoxStorage.store` call observes. -/
structure DropBoxEnv where
  dropbox_available : Bool
  dir : Dir
  cands : Nat → Str
  fuel : Nat
  copy_ok : Bool

/-- `DropBoxStorage.store(self, output)`: the `try: import dropbox`
guard — whose `except` clause raises the unbound name
`StorageDependecyError` — then the naming/staging steps, then
`dropbox.client.DropboxClient(self.dropbox_access_token)`. The instance
has no attribute `dropbox_access_token` (`__init__` stored the token as
`dropbox_app_key`), so that line raises `AttributeError` and the later
upload, auth check and share-link steps are unreachable. -/
def DropBoxStorage.store (self : DropBoxStorage) (env : DropBoxEnv) (output : IOHandler) :
    Except PyError StoreTriple × Dir :=
  if env.dropbox_available = false then
    (.error (raiseExc ("StorageDependecyError")), env.dir)
  else
    let file_name := output.file
    match tempfile_mkstemp env.dir (store_sfx file_name output.output_format.get_extension)
        (store_fname file_name) self.target env.cands env.fuel with
    | none => (.error .FileExistsError, env.dir)
    | some (_output_name, dir1) =>
      if env.copy_ok = false then (.error .OSError, dir1)
      else (.error .AttributeError, dir1)

/- ---------------------------------------------------------------------
GoogleDriveStorage.
--------------------------------------------------------------------- -/

/-- `class GoogleDriveStorage`: configuration closed over at
construction. -/
structure GoogleDriveStorage where
  drive_secret_file : Str
  target : Str
  output_url : Str

/-- The facts one `GoogleDriveStorage.store` call observes: whether the
unguarded `import httplib2` succeeds, whether the guarded
google-client imports succeed, staging facts, and whether reading the
service-account
credentials and building the service succeed. -/
structure GoogleDriveEnv where
  httplib2_available : Bool
  google_client_available : Bool
  dir : Dir
  cands : Nat → Str
  fuel : Nat
  copy_ok : Bool
  creds_ok : Bool

/-- `GoogleDriveStorage.store(self, output)`: `import shutil, tempfile,
httplib2` sits before the guard, so a missing `httplib2` raises a bare
`ImportError`; the guarded google-client imports raise the unbound name
`StorageDependecyError` when they fail; then the naming/staging steps,
the credential/service setup, and `MediaFileUpload(...)` — a name the
module never imports, so the call raises `NameError` before any
upload. -/
def GoogleDriveStorage.store (self : GoogleDriveStorage) (env : GoogleDriveEnv)
    (output : IOHandler) : Except PyError StoreTriple × Dir :=
  if env.httplib2_available = false then (.error .ImportError, env.dir)
  else if env.google_client_available = false then
    (.error (raiseExc ("StorageDependecyError")), env.dir)
  else
    let file_name := output.file
    match tempfile_mkstemp env.dir (store_sfx file_name output.output_format.get_extension)
        (store_fname file_name) self.target env.cands env.fuel with
    | none => (.error .FileExistsError, env.dir)
    | some (_output_name, dir1) =>
      if env.copy_ok = false then (.error .OSError, dir1)
      else if env.creds_ok = false then (.error .OtherError, dir1)
      else (.error (raiseExc ("MediaFileUpload")), dir1)

/- ---------------------------------------------------------------------
The Name Allocator under interleaved invocation. `mkstemp` creates its
file with `O_CREAT | O_EXCL`, an atomic create-if-absent step, so any
interleaving of concurrent allocations against one directory is some
sequence of such steps; `allocRun` ranges over those sequences.
--------------------------------------------------------------------- -/

/-- One Name Allocator invocation: its candidate-name stream and its
attempt budget. -/
structure AllocReq where
  names : Nat → Str
  fuel : Nat

/-- One atomic allocation against the directory: the `mkstemp` loop,
recording the created path into the directory namespace. -/
def allocate (d : Dir) (r : AllocReq) : Option Str × Dir :=
  match mkstempAux d.files r.names 0 r.fuel with
  | none => (none, d)
  | some p => (some p, ⟨p :: d.files⟩)

/-- A serialization of concurrent Name Allocator invocations: the atomic
create-if-absent steps applied in sequence, collecting each call's
returned name. -/
def allocRun : Dir → List AllocReq → List (Option Str) × Dir
  | d, [] => ([], d)
  | d, r :: rs =>
    let step := allocate d r
    let rest := allocRun step.2 rs
    (step.1 :: rest.1, rest.2)

/- ---------------------------------------------------------------------
Helper lemmas.
--------------------------------------------------------------------- -/

instance {ε α : Type} [DecidableEq ε] [DecidableEq α] : DecidableEq (Except ε α)
  | .error a, .error b => decidable_of_iff (a = b) (by simp)
  | .error _, .ok _ => .isFalse (by simp)
  | .ok _, .error _ => .isFalse (by simp)
  | .ok a, .ok b => decidable_of_iff (a = b) (by simp)

/-- The exact rational ceiling of `L / B` times `B` is the integer
ceiling-division formula `(L + B - 1) / B * B`. -/
theorem actual_file_size_eq (L B : Nat) (hB : 0 < B) :
    actual_file_size L B = (((L + B - 1) / B * B : Nat) : Int) := by
  have hB0 : (0 : ℚ) < (B : ℚ) := by exact_mod_cast hB
  obtain ⟨h1, h2⟩ : L ≤ (L + B - 1) / B * B ∧ (L + B - 1) / B * B < L + B := by
    have hdm := Nat.div_add_mod (L + B - 1) B
    have hmod : (L + B - 1) % B < B := Nat.mod_lt _ hB
    generalize hq : (L + B - 1) / B = q at hdm ⊢
    rw [Nat.mul_comm q B]
    generalize hP : B * q = P at hdm ⊢
    omega
  have hq1 : ((L : ℚ)) ≤ (((L + B - 1) / B * B : ℕ) : ℚ) := by exact_mod_cast h1
  have hq2 : (((L + B - 1) / B * B : ℕ) : ℚ) < ((L + B : ℕ) : ℚ) := by exact_mod_cast h2
  rw [Nat.cast_mul] at hq1 hq2
  rw [Nat.cast_add] at hq2
  have hkey : ⌈(L : ℚ) / (B : ℚ)⌉ = (((L + B - 1) / B : ℕ) : ℤ) := by
    rw [Int.ceil_eq_iff]
    constructor
    · rw [Int.cast_natCast, lt_div_iff₀ hB0]
      nlinarith [hq2]
    · rw [Int.cast_natCast, div_le_iff₀ hB0]
      linarith [hq1]
  unfold actual_file_size
  rw [hkey, Nat.cast_mul]

/-- A name the `mkstemp` loop hands back was not among the existing
files, and is one of the candidate names. -/
theorem mkstempAux_eq_some {files : List Str} {mk : Nat → Str} :
    ∀ {i fuel : Nat} {p : Str}, mkstempAux files mk i fuel = some p →
      p ∉ files ∧ ∃ j, p = mk j := by
  intro i fuel
  induction fuel generalizing i with
  | zero => intro p h; simp [mkstempAux] at h
  | succ n ih =>
    intro p h
    rw [mkstempAux] at h
    by_cases hm : mk i ∈ files
    · rw [if_pos hm] at h
      exact ih h
    · rw [if_neg hm] at h
      cases h
      exact ⟨hm, i, rfl⟩

/-- Inversion for a successful `tempfile.mkstemp`: the returned path did
not exist before, now exists, and is built from one of the candidate
random strings. -/
theorem tempfile_mkstemp_eq_some {d : Dir} {sfx pfx dirPath : Str} {cands : Nat → Str}
    {fuel : Nat} {p : Str} {d' : Dir}
    (h : tempfile_mkstemp d sfx pfx dirPath cands fuel = some (p, d')) :
    p ∉ d.files ∧ d' = ⟨p :: d.files⟩ ∧
      ∃ j, p = mkstemp_path dirPath pfx (cands j) sfx := by
  unfold tempfile_mkstemp at h
  cases hm : mkstempAux d.files (fun i => mkstemp_path dirPath pfx (cands i) sfx) 0 fuel with
  | none => rw [hm] at h; simp at h
  | some q =>
    rw [hm] at h
    obtain ⟨hq1, j, hq2⟩ := mkstempAux_eq_some hm
    simp only [Option.some.injEq, Prod.mk.injEq] at h
    obtain ⟨rfl, rfl⟩ := h
    exact ⟨hq1, rfl, j, hq2⟩

/-- Inversion for a successful `FileStorage.store`: the tag is
`STORE_TYPE.PATH`, the URL is the join of the configured base with the
locator's base name, the locator is a fresh `mkstemp` path now recorded
in the target directory. -/
theorem store_eq_ok {self : FileStorage} {env : StoreEnv} {output : IOHandler}
    {t : Nat} {loc url : Str} {d' : Dir}
    (h : FileStorage.store self env output = (.ok (t, loc, url), d')) :
    t = STORE_TYPE.PATH ∧ url = urljoin self.output_url (basename loc) ∧
      loc ∉ env.dir.files ∧ d' = ⟨loc :: env.dir.files⟩ ∧
      ∃ j, loc = mkstemp_path self.target (store_fname output.file) (env.cands j)
          (store_sfx output.file output.output_format.get_extension) := by
  simp only [FileStorage.store] at h
  split at h
  · simp at h
  · split at h
    · simp at h
    · rename_i output_name dir1 heq
      split at h
      · simp only [Prod.mk.injEq, Except.ok.injEq] at h
        obtain ⟨⟨rfl, rfl, rfl⟩, rfl⟩ := h
        obtain ⟨hfresh, hdir, j, hpath⟩ := tempfile_mkstemp_eq_some heq
        exact ⟨rfl, rfl, hfresh, hdir, j, hpath⟩
      · simp at h

/-- The suffix handed to `mkstemp` ends the path it builds. -/
theorem suffix_mkstemp_path (dirPath pfx rnd sfx : Str) :
    sfx <:+ mkstemp_path dirPath pfx rnd sfx := by
  have h1 : sfx <:+ pfx ++ rnd ++ sfx := List.suffix_append _ _
  unfold mkstemp_path os_join
  split
  · exact h1
  · split
    · exact h1
    · split
      · exact h1.trans (List.suffix_append _ _)
      · exact h1.trans ((List.suffix_cons _ _).trans (List.suffix_append _ _))

/-- A successful atomic allocation returns a name that did not exist and
records it. -/
theorem allocate_eq_some {d : Dir} {r : AllocReq} {p : Str} {d' : Dir}
    (h : allocate d r = (some p, d')) : p ∉ d.files ∧ d' = ⟨p :: d.files⟩ := by
  unfold allocate at h
  cases hm : mkstempAux d.files r.names 0 r.fuel with
  | none => rw [hm] at h; simp at h
  | some q =>
    rw [hm] at h
    obtain ⟨hq, -⟩ := mkstempAux_eq_some hm
    simp only [Prod.mk.injEq, Option.some.injEq] at h
    obtain ⟨rfl, rfl⟩ := h
    exact ⟨hq, rfl⟩

/-- A failed atomic allocation leaves the directory unchanged. -/
theorem allocate_eq_none {d : Dir} {r : AllocReq} {d' : Dir}
    (h : allocate d r = (none, d')) : d' = d := by
  unfold allocate at h
  cases hm : mkstempAux d.files r.names 0 r.fuel with
  | none => rw [hm] at h; simp only [Prod.mk.injEq] at h; exact h.2.symm
  | some q => rw [hm] at h; simp at h

/-- Across any serialization of atomic allocations, the returned names
are pairwise distinct and none of them existed at the start. -/
theorem allocRun_nodup_fresh :
    ∀ (rs : List AllocReq) (d : Dir),
      ((allocRun d rs).1.filterMap id).Nodup ∧
      ∀ p ∈ (allocRun d rs).1.filterMap id, p ∉ d.files := by
  intro rs
  induction rs with
  | nil => intro d; simp [allocRun]
  | cons r rs ih =>
    intro d
    rcases hst : allocate d r with ⟨res, d1⟩
    have hrun : allocRun d (r :: rs) = (res :: (allocRun d1 rs).1, (allocRun d1 rs).2) := by
      simp [allocRun, hst]
    rw [hrun]
    obtain ⟨ihn, ihf⟩ := ih d1
    cases res with
    | none =>
      have hd1 : d1 = d := allocate_eq_none hst
      rw [hd1] at ihn ihf ⊢
      have hfm : (none :: (allocRun d rs).1).filterMap id = (allocRun d rs).1.filterMap id := rfl
      rw [hfm]
      exact ⟨ihn, ihf⟩
    | some p =>
      obtain ⟨hfresh, hdir⟩ := allocate_eq_some hst
      subst hdir
      have hfm : (some p :: (allocRun ⟨p :: d.files⟩ rs).1).filterMap id
          = p :: (allocRun ⟨p :: d.files⟩ rs).1.filterMap id := rfl
      rw [hfm]
      constructor
      · rw [List.nodup_cons]
        refine ⟨fun hmem => ?_, ihn⟩
        exact ihf p hmem (List.mem_cons_self p d.files)
      · intro q hq
        rcases List.mem_cons.mp hq with rfl | hq
        · exact hfresh
        · intro hq2
          exact ihf q hq (List.mem_cons_of_mem _ hq2)

/- ---------------------------------------------------------------------
Claim theorems.
--------------------------------------------------------------------- -/

/-- C1: the claim says `get_free_space` returns the free capacity of the
hosting filesystem in bytes on every platform. The Windows branch does
report bytes, but the branch for every other platform returns
`os.statvfs(folder).f_bfree` — the free *block* count: for a filesystem
with 10 free blocks of 4096 bytes each (40960 free bytes, and a Windows
query of the same disk reports 40960), it returns 10. This contradicts
the function's own docstring ("Return folder/drive free space (in
bytes)"): the code omits the `f_frsize` factor. -/
theorem c1_get_free_space_posix_not_bytes :
    get_free_space .windows ⟨40960, ⟨10, 4096⟩⟩ = statvfs_free_bytes ⟨10, 4096⟩ ∧
    get_free_space .posix ⟨40960, ⟨10, 4096⟩⟩ = 10 ∧
    get_free_space .posix ⟨40960, ⟨10, 4096⟩⟩ ≠ statvfs_free_bytes ⟨10, 4096⟩ := by
  decide

/-- C2: whenever the value returned by the free-space query is below the
block-rounded artifact size, `FileStorage.store` fails with
`NotEnoughStorage` and the target directory is unchanged — the check
precedes the name allocation and the copy, so no write begins. -/
theorem c2_insufficient_capacity (self : FileStorage) (env : StoreEnv) (output : IOHandler)
    (h : (get_free_space env.platform env.disk : Int) <
        actual_file_size env.st_size env.st_blksize) :
    FileStorage.store self env output = (.error .NotEnoughStorage, env.dir) := by
  simp only [FileStorage.store]
  rw [if_pos h]

/-- C2 witness: the spec's scenario — 1000 bytes available, block size
512, a 600-byte artifact — required is 1024 > 1000, so the store fails
with `NotEnoughStorage` and the directory gains no file. -/
theorem c2_insufficient_capacity_witness :
    FileStorage.store ⟨"/data/out".toList, "http://wps/outputs/".toList⟩
        ⟨.windows, ⟨1000, ⟨0, 0⟩⟩, 600, 512, ⟨[]⟩, fun _ => "Q7g3Lp".toList, 1, true⟩
        ⟨"/run/artifact".toList, ⟨".bin".toList⟩⟩
      = (.error .NotEnoughStorage, ⟨[]⟩) :=
  c2_insufficient_capacity _ _ _ (by
    show (1000 : Int) < actual_file_size 600 512
    rw [actual_file_size_eq 600 512 (by decide)]
    decide)

/-- C3: the block-rounding computation of `FileStorage.store` equals the
exact integer ceiling `(L + B - 1) / B` times `B`, is non-negative, and
is a multiple of the block size. -/
theorem c3_required_space (L B : Nat) (hB : 0 < B) :
    actual_file_size L B = (((L + B - 1) / B : Nat) : Int) * B ∧
    0 ≤ actual_file_size L B ∧ (B : Int) ∣ actual_file_size L B := by
  refine ⟨?_, ?_, ?_⟩
  · rw [actual_file_size_eq L B hB]
    push_cast
    ring
  · rw [actual_file_size_eq L B hB]
    positivity
  · exact ⟨⌈(L : ℚ) / (B : ℚ)⌉, mul_comm _ _⟩

/-- C3 witness at the spec's scenario values L = 600, B = 512. -/
theorem c3_required_space_witness :
    0 < 512 ∧
    (actual_file_size 600 512 = (((600 + 512 - 1) / 512 : Nat) : Int) * 512 ∧
     0 ≤ actual_file_size 600 512 ∧ (512 : Int) ∣ actual_file_size 600 512) :=
  ⟨by decide, c3_required_space 600 512 (by decide)⟩

/-- C4 counterexample: at a concrete successful store the locator of the
returned triple is `/tmp/out/resultAbCw12.tiff` — the full path `mkstemp`
created, not the relative name within the target directory (it is not
its own base name) — and the url is not the configured base URL joined
with the base name: RFC 3986 resolution dropped the base's final segment
`outputs`. -/
theorem c4_locator_not_relative :
    (FileStorage.store ⟨"/tmp/out".toList, "http://foo/bar/outputs".toList⟩
        ⟨.windows, ⟨1000000, ⟨0, 0⟩⟩, 600, 512, ⟨[]⟩, fun _ => "AbCw12".toList, 1, true⟩
        ⟨"/job/result".toList, ⟨".tiff".toList⟩⟩).1
      = .ok (STORE_TYPE.PATH, "/tmp/out/resultAbCw12.tiff".toList,
             "http://foo/bar/resultAbCw12.tiff".toList) ∧
    "/tmp/out/resultAbCw12.tiff".toList ≠ basename ("/tmp/out/resultAbCw12.tiff".toList) ∧
    "http://foo/bar/resultAbCw12.tiff".toList
      ≠ "http://foo/bar/outputs".toList ++ "/resultAbCw12.tiff".toList := by
  have hc : actual_file_size 600 512 = 1024 := by
    rw [actual_file_size_eq 600 512 (by decide)]
    decide
  refine ⟨?_, by decide, by decide⟩
  simp only [FileStorage.store, hc]
  decide

/-- C4 (amended): every successful local store returns the tag
`STORE_TYPE.PATH`; the locator is the full path `mkstemp` allocated
inside the target directory (not the stored file's relative name), now
recorded in the directory; and the url is `urljoin(output_url,
basename(locator))` — RFC 3986 resolution of the base name against the
configured base URL, which replaces the base's final path segment rather
than appending a new one. -/
theorem c4_store_result (self : FileStorage) (env : StoreEnv) (output : IOHandler)
    (t : Nat) (loc url : Str) (d' : Dir)
    (h : FileStorage.store self env output = (.ok (t, loc, url), d')) :
    t = STORE_TYPE.PATH ∧
    url = urljoin self.output_url (basename loc) ∧
    d' = ⟨loc :: env.dir.files⟩ ∧
    ∃ j, loc = mkstemp_path self.target (store_fname output.file) (env.cands j)
        (store_sfx output.file output.output_format.get_extension) := by
  obtain ⟨h1, h2, -, h4, h5⟩ := store_eq_ok h
  exact ⟨h1, h2, h4, h5⟩

/-- C4 witness: the amended statement at a concrete successful store. -/
theorem c4_store_result_witness :
    STORE_TYPE.PATH = STORE_TYPE.PATH ∧
    "http://pub/a/resultXYZab0.tiff".toList
      = urljoin ("http://pub/a/b".toList) (basename ("/o/resultXYZab0.tiff".toList)) ∧
    (⟨["/o/resultXYZab0.tiff".toList]⟩ : Dir)
      = ⟨"/o/resultXYZab0.tiff".toList :: (⟨[]⟩ : Dir).files⟩ ∧
    ∃ j : Nat, "/o/resultXYZab0.tiff".toList
        = mkstemp_path ("/o".toList) (store_fname ("/job/result".toList))
            ((fun _ : Nat => "XYZab0".toList) j) (store_sfx ("/job/result".toList) (".tiff".toList)) :=
  c4_store_result ⟨"/o".toList, "http://pub/a/b".toList⟩
    ⟨.windows, ⟨900000, ⟨0, 0⟩⟩, 600, 512, ⟨[]⟩, fun _ => "XYZab0".toList, 1, true⟩
    ⟨"/job/result".toList, ⟨".tiff".toList⟩⟩
    STORE_TYPE.PATH ("/o/resultXYZab0.tiff".toList) ("http://pub/a/resultXYZab0.tiff".toList)
    ⟨["/o/resultXYZab0.tiff".toList]⟩
    (by
      have hc : actual_file_size 600 512 = 1024 := by
        rw [actual_file_size_eq 600 512 (by decide)]
        decide
      simp only [FileStorage.store, hc]
      decide)

/-- C5: when the local copy fails partway (the admission check and the
name allocation both succeeded), `store` surfaces the copy's error — the
PlacementFailed condition, here the propagated `OSError` of
`shutil.copy2` — and returns no success triple, so no partial result is
exposed; the allocated name is left dangling (the claim lets the caller
treat it as not safe to dereference). -/
theorem c5_copy_failure (self : FileStorage) (env : StoreEnv) (output : IOHandler)
    (hcap : ¬ (get_free_space env.platform env.disk : Int) <
        actual_file_size env.st_size env.st_blksize)
    (nm : Str) (d1 : Dir)
    (hmk : tempfile_mkstemp env.dir
        (store_sfx output.file output.output_format.get_extension)
        (store_fname output.file) self.target env.cands env.fuel = some (nm, d1))
    (hcopy : env.copy_ok = false) :
    FileStorage.store self env output = (.error .OSError, d1) := by
  simp only [FileStorage.store, if_neg hcap, hmk, hcopy]
  rw [if_neg Bool.false_ne_true]

/-- C5 witness: a concrete run in which the copy fails after `mkstemp`
allocated `/o/resultcopyF1.tiff`; the call returns the copy error. -/
theorem c5_copy_failure_witness :
    FileStorage.store ⟨"/o".toList, "http://pub/a/b".toList⟩
        ⟨.posix, ⟨0, ⟨5000, 1⟩⟩, 600, 512, ⟨[]⟩, fun _ => "copyF1".toList, 1, false⟩
        ⟨"/job/result".toList, ⟨".tiff".toList⟩⟩
      = (.error .OSError, ⟨["/o/resultcopyF1.tiff".toList]⟩) :=
  c5_copy_failure _ _ _
    (by
      show ¬ (5000 : Int) < actual_file_size 600 512
      rw [actual_file_size_eq 600 512 (by decide)]
      decide)
    ("/o/resultcopyF1.tiff".toList) ⟨["/o/resultcopyF1.tiff".toList]⟩
    (by decide) rfl

/-- C6: with the protocol client library unavailable, each remote
backend's store does fail before any network attempt — but not with
the imported `StorageDependencyError`: all three `except` clauses raise the
name `StorageDependecyError`, which is never bound in the module, so the
call raises `NameError` instead. The last two conjuncts record that the
correctly spelled name was available and that the two outcomes differ. -/
theorem c6_missing_dependency_nameerror :
    (FTPStorage.store ⟨"ftp.example.org".toList, "u".toList, "pw".toList,
        "/srv/out".toList, "http://h/out".toList⟩
        ⟨false, ⟨[]⟩, fun _ => "Rz81xq".toList, 1, true, true, true, true⟩
        ⟨"/job/result.txt".toList, ⟨".txt".toList⟩⟩).1
      = .error (.NameError ("StorageDependecyError")) ∧
    (DropBoxStorage.store ⟨"tok".toList, "/srv/out".toList, "http://h/out".toList⟩
        ⟨false, ⟨[]⟩, fun _ => "Rz81xq".toList, 1, true⟩
        ⟨"/job/result.txt".toList, ⟨".txt".toList⟩⟩).1
      = .error (.NameError ("StorageDependecyError")) ∧
    (GoogleDriveStorage.store ⟨"secret.json".toList, "/srv/out".toList, "http://h/out".toList⟩
        ⟨true, false, ⟨[]⟩, fun _ => "Rz81xq".toList, 1, true, true⟩
        ⟨"/job/result.txt".toList, ⟨".txt".toList⟩⟩).1
      = .error (.NameError ("StorageDependecyError")) ∧
    raiseExc ("StorageDependencyError") = .StorageDependencyError ∧
    PyError.NameError ("StorageDependecyError") ≠ .StorageDependencyError := by
  decide

/-- C7: the extension policy of the stored name — when the original name
carries an extension (as `os.path.splitext` recognizes one), the stored
name ends with it; otherwise the stored name ends with the declared
output format's extension. -/
theorem c7_extension_policy (self : FileStorage) (env : StoreEnv) (output : IOHandler)
    (t : Nat) (loc url : Str) (d' : Dir)
    (h : FileStorage.store self env output = (.ok (t, loc, url), d')) :
    ((splitext output.file).2 ≠ [] → (splitext output.file).2 <:+ loc) ∧
    ((splitext output.file).2 = [] → output.output_format.get_extension <:+ loc) := by
  obtain ⟨-, -, -, -, j, hj⟩ := store_eq_ok h
  subst hj
  constructor
  · intro hne
    have hs : store_sfx output.file output.output_format.get_extension
        = (splitext output.file).2 := by
      simp only [store_sfx]
      rw [if_neg hne]
    rw [hs]
    exact suffix_mkstemp_path _ _ _ _
  · intro heq
    have hs : store_sfx output.file output.output_format.get_extension
        = output.output_format.get_extension := by
      simp only [store_sfx]
      rw [if_pos heq]
    rw [hs]
    exact suffix_mkstemp_path _ _ _ _

/-- C7 witness: the spec's scenario — `/job/result` has no extension and
the declared format extension is `.tiff`; the stored name ends in
`.tiff`. -/
theorem c7_extension_policy_witness :
    ((splitext ("/job/result".toList)).2 ≠ [] →
      (splitext ("/job/result".toList)).2 <:+ "/o/resultExtW99.tiff".toList) ∧
    ((splitext ("/job/result".toList)).2 = [] →
      ".tiff".toList <:+ "/o/resultExtW99.tiff".toList) :=
  c7_extension_policy ⟨"/o".toList, "http://pub/a/b".toList⟩
    ⟨.posix, ⟨0, ⟨7000, 1⟩⟩, 600, 512, ⟨[]⟩, fun _ => "ExtW99".toList, 1, true⟩
    ⟨"/job/result".toList, ⟨".tiff".toList⟩⟩
    STORE_TYPE.PATH ("/o/resultExtW99.tiff".toList)
    ("http://pub/a/resultExtW99.tiff".toList) ⟨["/o/resultExtW99.tiff".toList]⟩
    (by
      have hc : actual_file_size 600 512 = 1024 := by
        rw [actual_file_size_eq 600 512 (by decide)]
        decide
      simp only [FileStorage.store, hc]
      decide)

/-- C8 counterexample: the claim's final conjunct says the Null
backend's sentinel result carries a non-empty url; at this concrete call
`DummyStorage.store` returns Python `None` — no `StoreResult` at all,
hence no url. -/
theorem c8_sentinel_has_no_url :
    DummyStorage.store ⟨⟩ ⟨"/job/result.txt".toList, ⟨".txt".toList⟩⟩ = none := rfl

/-- C8 (amended): the Null backend's store performs no I/O and never
fails: every call returns the same sentinel value, Python `None` — which
is not a `StoreResult` and carries no url, so the non-empty-url success
invariant does not hold for it. -/
theorem c8_dummy_sentinel (s1 s2 : DummyStorage) (o1 o2 : IOHandler) :
    DummyStorage.store s1 o1 = none ∧
    DummyStorage.store s1 o1 = DummyStorage.store s2 o2 :=
  ⟨rfl, rfl⟩

/-- C9: across every serialization of the atomic create-if-absent steps
(`O_CREAT | O_EXCL` inside `mkstemp`) performed by concurrently invoked
Name Allocator calls against one target directory, the set of returned
stored names contains no duplicates — and none of the returned names
existed before the run. -/
theorem c9_concurrent_names_nodup (d : Dir) (rs : List AllocReq) :
    ((allocRun d rs).1.filterMap id).Nodup ∧
    ∀ p ∈ (allocRun d rs).1.filterMap id, p ∉ d.files :=
  allocRun_nodup_fresh rs d

/-- C10: a successful store's locator is a path `mkstemp` freshly
created — it did not exist in the target directory before the call and
exists after it — so two successful stores in sequence against the same
target directory return distinct locators. -/
theorem c10_sequential_distinct (self : FileStorage) (env1 env2 : StoreEnv)
    (out1 out2 : IOHandler) (t1 t2 : Nat) (l1 u1 l2 u2 : Str) (d1 d2 : Dir)
    (h1 : FileStorage.store self env1 out1 = (.ok (t1, l1, u1), d1))
    (hchain : env2.dir = d1)
    (h2 : FileStorage.store self env2 out2 = (.ok (t2, l2, u2), d2)) :
    l1 ∉ env1.dir.files ∧ l1 ∈ d1.files ∧ l2 ≠ l1 := by
  obtain ⟨-, -, hf1, hd1, -⟩ := store_eq_ok h1
  obtain ⟨-, -, hf2, -, -⟩ := store_eq_ok h2
  subst hd1
  rw [hchain] at hf2
  refine ⟨hf1, List.mem_cons_self _ _, fun hleq => ?_⟩
  exact hf2 (by rw [hleq]; exact List.mem_cons_self _ _)

/-- C10 witness: two chained concrete stores; the first creates
`/o/resultSeqA01.tiff` (fresh), the second — running on the directory
the first left behind — returns the distinct `/o/resultSeqB02.tiff`. -/
theorem c10_sequential_distinct_witness :
    "/o/resultSeqA01.tiff".toList ∉ (⟨[]⟩ : Dir).files ∧
    "/o/resultSeqA01.tiff".toList ∈ (⟨["/o/resultSeqA01.tiff".toList]⟩ : Dir).files ∧
    "/o/resultSeqB02.tiff".toList ≠ "/o/resultSeqA01.tiff".toList :=
  c10_sequential_distinct ⟨"/o".toList, "http://pub/a/b".toList⟩
    ⟨.posix, ⟨0, ⟨7000, 1⟩⟩, 600, 512, ⟨[]⟩, fun _ => "SeqA01".toList, 1, true⟩
    ⟨.posix, ⟨0, ⟨7000, 1⟩⟩, 600, 512, ⟨["/o/resultSeqA01.tiff".toList]⟩,
      fun _ => "SeqB02".toList, 1, true⟩
    ⟨"/job/result".toList, ⟨".tiff".toList⟩⟩ ⟨"/job/result".toList, ⟨".tiff".toList⟩⟩
    STORE_TYPE.PATH STORE_TYPE.PATH
    ("/o/resultSeqA01.tiff".toList) ("http://pub/a/resultSeqA01.tiff".toList)
    ("/o/resultSeqB02.tiff".toList) ("http://pub/a/resultSeqB02.tiff".toList)
    ⟨["/o/resultSeqA01.tiff".toList]⟩
    ⟨["/o/resultSeqB02.tiff".toList, "/o/resultSeqA01.tiff".toList]⟩
    (by
      have hc : actual_file_size 600 512 = 1024 := by
        rw [actual_file_size_eq 600 512 (by decide)]
        decide
      simp only [FileStorage.store, hc]
      decide)
    rfl
    (by
      have hc : actual_file_size 600 512 = 1024 := by
        rw [actual_file_size_eq 600 512 (by decide)]
        decide
      simp only [FileStorage.store, hc]
      decide)

end PyWPS
